import Mathlib

/-!
Verification of the Water-Park discrete-event simulator core.

Shallow embedding of the repository's Python sources:
  Event.py, entities.py, facilities.py, sampling_algorithms.py,
  Water Park Simulation/Queue.py, Water Park Simulation/Simulation.py.

Timestamps are modelled as rational numbers of minutes (the Python code
works with datetime values whose differences are converted to minutes or
hours; minute arithmetic over the rationals captures this exactly).
Python object identity (used by the source for queue membership and
removal) is modelled by a numeric vid field on visitors.
-/

set_option maxHeartbeats 1600000

/-- A park visitor entity. Fields mirror the attributes of entities.py
that the verified operations read or write. The pair stored in
tube_partner is the partner's vid together with the partner's
group_size, modelling the Python object reference set by
Pipes_River.process_entry. -/
structure Visitor where
  vid : Nat
  group_size : Nat
  rating : ℚ := 10
  is_shared_tube : Bool := false
  tube_partner : Option (Nat × Nat) := none
deriving DecidableEq, Repr

/-- QueueServer from Queue.py: a FIFO of (visitor, arrival time) pairs
plus the waiting-time and queue-length statistics it accumulates. -/
structure QueueServer where
  server_queue : List (Visitor × ℚ) := []
  active_hours : ℚ := 10
  waiting_times : List ℚ := []
  total_queue_length_time : ℚ := 0
  queue_lengths : List Nat := [0]
  queue_change_times : List ℚ := []
  daily_avg_queue_lengths : List ℚ := []
  daily_avg_waiting_times : List ℚ := []
deriving DecidableEq, Repr

/-- QueueServer.__init__. -/
def QueueServer.init : QueueServer := {}

/-- QueueServer.record_queue_length: update the time-weighted area under
the queue-length curve (duration converted from minutes to hours), then
append the current time and the current queue length. -/
def QueueServer.recordLen (q : QueueServer) (t : ℚ) : QueueServer :=
  let area :=
    match q.queue_lengths.getLast?, q.queue_change_times.getLast? with
    | some len, some last => q.total_queue_length_time + (len : ℚ) * ((t - last) / 60)
    | _, _ => q.total_queue_length_time
  { q with total_queue_length_time := area,
           queue_change_times := q.queue_change_times ++ [t],
           queue_lengths := q.queue_lengths ++ [q.server_queue.length] }

/-- QueueServer.add: append the pair and record the new length. -/
def QueueServer.addQ (q : QueueServer) (v : Visitor) (t : ℚ) : QueueServer :=
  QueueServer.recordLen { q with server_queue := q.server_queue ++ [(v, t)] } t

/-- Python list.insert semantics: insert at index, appending when the
index is past the end. -/
def listInsertAt {α : Type} : Nat → α → List α → List α
  | 0, a, l => a :: l
  | _ + 1, a, [] => [a]
  | n + 1, a, x :: xs => x :: listInsertAt n a xs

/-- QueueServer.insert: place the pair at the given index and record the
queue length at the supplied time (always a real time at the call sites
we verify). -/
def QueueServer.insertQ (q : QueueServer) (idx : Nat) (v : Visitor) (t : ℚ) : QueueServer :=
  QueueServer.recordLen { q with server_queue := listInsertAt idx (v, t) q.server_queue } t

/-- Remove the first pair whose visitor has the given vid (Python list
removal by object identity). -/
def eraseFirstVid : List (Visitor × ℚ) → Nat → List (Visitor × ℚ)
  | [], _ => []
  | (v, t) :: rest, i => if v.vid = i then rest else (v, t) :: eraseFirstVid rest i

/-- QueueServer.remove: record the (pre-removal) queue length, then drop
the first occurrence of the visitor. -/
def QueueServer.removeQ (q : QueueServer) (v : Visitor) (t : ℚ) : QueueServer :=
  let q1 := QueueServer.recordLen q t
  { q1 with server_queue := eraseFirstVid q1.server_queue v.vid }

/-- QueueServer.pop: remove the head, record the new length, and append
the observed waiting time; none when the queue is empty. -/
def QueueServer.popQ (q : QueueServer) (t : ℚ) : QueueServer × Option (Visitor × ℚ) :=
  match q.server_queue with
  | [] => (q, none)
  | (v, arr) :: rest =>
    let q1 := QueueServer.recordLen { q with server_queue := rest } t
    ({ q1 with waiting_times := q1.waiting_times ++ [t - arr] }, some (v, arr))

/-- QueueServer.size. -/
def QueueServer.sizeQ (q : QueueServer) : Nat := q.server_queue.length

/-- QueueServer.calc_daily_statistics: archive the day's averages and
reset the per-day counters to the initial state. -/
def QueueServer.calcDaily (q : QueueServer) : QueueServer :=
  let avgLen := if q.active_hours > 0 then q.total_queue_length_time / q.active_hours else 0
  let avgWait := if q.waiting_times ≠ [] then q.waiting_times.sum / (q.waiting_times.length : ℚ) else 0
  { q with daily_avg_queue_lengths := q.daily_avg_queue_lengths ++ [avgLen],
           daily_avg_waiting_times := q.daily_avg_waiting_times ++ [avgWait],
           total_queue_length_time := 0,
           queue_change_times := [],
           queue_lengths := [0],
           waiting_times := [] }

/-- Event.__lt__ from Event.py: compare by timestamp, and on equal
timestamps by the Python object id (memory address) of the event. The
objId field stands for id(self). -/
structure EventKey where
  time : ℚ
  objId : Nat
deriving DecidableEq, Repr

/-- The comparison used by the scheduler's heap (Event.__lt__). -/
def eventLt (e o : EventKey) : Bool :=
  if e.time = o.time then decide (e.objId < o.objId) else decide (e.time < o.time)

/-!
Big_Pipes_Slide.get_next_batch / Small_Pipes_Slide.get_next_batch
(facilities.py). The two methods are textually identical up to the tube
size (8 and 3), so the embedding takes the tube size E as a parameter.
-/

/-- Result of one take-from-queue loop of get_next_batch: the mutated
queue, the accumulated batch headcount, the batch, the popped pairs kept
for rollback, and whether the exact tube size was reached. -/
structure TakeResult where
  q : QueueServer
  bs : Nat
  batch : List Visitor
  temp : List (Visitor × ℚ)
  done : Bool
deriving Repr

/-- One of the two identical while-loops of get_next_batch: repeatedly
pop the head while it fits (batch_size + group_size less than or equal
to the tube size E), returning with done when the sum is exactly E,
stopping when the head would overshoot or the queue is exhausted. -/
def takeLoop (E : Nat) (t : ℚ) (q : QueueServer) (bs : Nat) (batch : List Visitor)
    (temp : List (Visitor × ℚ)) : TakeResult :=
  match hq : q.server_queue with
  | [] => ⟨q, bs, batch, temp, false⟩
  | (v, arr) :: _rest =>
    if bs < E then
      if bs + v.group_size ≤ E then
        let q1 := (QueueServer.popQ q t).1
        if bs + v.group_size = E then
          ⟨q1, bs + v.group_size, batch ++ [v], temp ++ [(v, arr)], true⟩
        else
          takeLoop E t q1 (bs + v.group_size) (batch ++ [v]) (temp ++ [(v, arr)])
      else ⟨q, bs, batch, temp, false⟩
    else ⟨q, bs, batch, temp, false⟩
termination_by q.server_queue.length
decreasing_by simp [QueueServer.popQ, QueueServer.recordLen, hq]

/-- Total headcount of a list of visitors. -/
def sizeSum (l : List Visitor) : Nat := (l.map Visitor.group_size).sum

/-- Total headcount waiting in a QueueServer. -/
def queueSizes (q : QueueServer) : Nat := (q.server_queue.map (fun p => p.1.group_size)).sum

/-- The rollback of get_next_batch: re-insert every popped pair at the
head of its origin queue, iterating the popped list in reverse. -/
def rollbackQ (q : QueueServer) (temp : List (Visitor × ℚ)) : QueueServer :=
  temp.reverse.foldl (fun acc p => QueueServer.insertQ acc 0 p.1 p.2) q

/-- get_next_batch for tube size E: check the total headcount, take a
prefix from the express queue, then from the regular queue, and either
return the exact batch or roll everything back and return the empty
list. -/
def getNextBatch (E : Nat) (t : ℚ) (exq req : QueueServer) :
    List Visitor × QueueServer × QueueServer :=
  let total := queueSizes exq + queueSizes req
  if total < E then ([], exq, req)
  else
    let r1 := takeLoop E t exq 0 [] []
    if r1.done then (r1.batch, r1.q, req)
    else
      let r2 := takeLoop E t req r1.bs r1.batch []
      if r2.done then (r2.batch, r1.q, r2.q)
      else ([], rollbackQ r1.q r1.temp, rollbackQ r2.q r2.temp)

/-! Field-level lemmas about the queue operations. -/

/-!
Pipes_River (facilities.py): 60 tubes of 2 seats, entry with pairing of
odd-sized groups, shared-tube release bookkeeping.
-/

/-- Visitors of a queue in order (Python list(queue)). -/
def queueVisitors (q : QueueServer) : List Visitor := q.server_queue.map Prod.fst

def pipesTotalTubes : Nat := 60

def pipesPeoplePerTube : Nat := 2

/-- math.ceil(a / b) for positive naturals. -/
def ceilDiv (a b : Nat) : Nat := (a + b - 1) / b

/-- Pipes_River.find_odd_group_in_queue: index of the first odd-sized
group. -/
def findOddGroupIdx : List Visitor → Option Nat
  | [] => none
  | v :: rest =>
    if v.group_size % 2 = 1 then some 0 else (findOddGroupIdx rest).map (· + 1)

/-- Cross-link two odd groups admitted together as tube partners
(process_entry sets is_shared_tube and tube_partner on both). -/
def pairUp (g1 g2 : Visitor) : Visitor × Visitor :=
  ({ g1 with is_shared_tube := true, tube_partner := some (g2.vid, g2.group_size) },
   { g2 with is_shared_tube := true, tube_partner := some (g1.vid, g1.group_size) })

/-- Result of Pipes_River.process_entry: both queues, the occupied-tube
counter, and the list of groups that entered. -/
structure PipesEntryResult where
  exq : QueueServer
  req : QueueServer
  occ : Nat
  entering : List Visitor
deriving Repr

/-- A fallback visitor for guarded list indexing (the Python source
indexes only positions proven to exist). -/
def dummyVisitor : Visitor := ⟨0, 0, 10, false, none⟩

/-- Pipes_River.process_entry: while tubes remain and progress is made,
admit the express head if even-sized and fitting; for an odd express
head, pair it with the first odd group later in express, else in
regular; mirror the rule on regular when express is empty. A pair that
does not fit is re-inserted at its original positions and the loop
stops. -/
def processEntryLoop (exq req : QueueServer) (occ : Nat) (t : ℚ)
    (entering : List Visitor) : PipesEntryResult :=
  if occ < pipesTotalTubes then
    match hx : exq.server_queue with
    | (g, _) :: _ =>
      if g.group_size % 2 = 0 then
        let tubes := g.group_size / pipesPeoplePerTube
        if occ + tubes ≤ pipesTotalTubes then
          processEntryLoop (exq.popQ t).1 req (occ + tubes) t (entering ++ [g])
        else ⟨exq, req, occ, entering⟩
      else
        match findOddGroupIdx (queueVisitors exq).tail with
        | some i =>
          let exq1 := (exq.popQ t).1
          let g2 := ((queueVisitors exq1).get? i).getD dummyVisitor
          let exq2 := exq1.removeQ g2 t
          let tubes := ceilDiv (g.group_size + g2.group_size) pipesPeoplePerTube
          if occ + tubes ≤ pipesTotalTubes then
            let pr := pairUp g g2
            processEntryLoop exq2 req (occ + tubes) t (entering ++ [pr.1, pr.2])
          else ⟨(exq2.insertQ 0 g t).insertQ (i + 1) g2 t, req, occ, entering⟩
        | none =>
          match findOddGroupIdx (queueVisitors req) with
          | some j =>
            let exq1 := (exq.popQ t).1
            let g2 := ((queueVisitors req).get? j).getD dummyVisitor
            let req1 := req.removeQ g2 t
            let tubes := ceilDiv (g.group_size + g2.group_size) pipesPeoplePerTube
            if occ + tubes ≤ pipesTotalTubes then
              let pr := pairUp g g2
              processEntryLoop exq1 req1 (occ + tubes) t (entering ++ [pr.1, pr.2])
            else ⟨exq1.insertQ 0 g t, req1.insertQ j g2 t, occ, entering⟩
          | none => ⟨exq, req, occ, entering⟩
    | [] =>
      match hr : req.server_queue with
      | (g, _) :: _ =>
        if g.group_size % 2 = 0 then
          let tubes := g.group_size / pipesPeoplePerTube
          if occ + tubes ≤ pipesTotalTubes then
            processEntryLoop exq (req.popQ t).1 (occ + tubes) t (entering ++ [g])
          else ⟨exq, req, occ, entering⟩
        else
          match findOddGroupIdx (queueVisitors req).tail with
          | some j =>
            let req1 := (req.popQ t).1
            let g2 := ((queueVisitors req1).get? j).getD dummyVisitor
            let req2 := req1.removeQ g2 t
            let tubes := ceilDiv (g.group_size + g2.group_size) pipesPeoplePerTube
            if occ + tubes ≤ pipesTotalTubes then
              let pr := pairUp g g2
              processEntryLoop exq req2 (occ + tubes) t (entering ++ [pr.1, pr.2])
            else ⟨exq, (req2.insertQ 0 g t).insertQ (j + 1) g2 t, occ, entering⟩
          | none => ⟨exq, req, occ, entering⟩
      | [] => ⟨exq, req, occ, entering⟩
  else ⟨exq, req, occ, entering⟩
termination_by exq.server_queue.length + req.server_queue.length
decreasing_by
  all_goals
    have herase : ∀ (l : List (Visitor × ℚ)) (i : Nat),
        (eraseFirstVid l i).length ≤ l.length := by
      intro l i
      induction l with
      | nil => simp [eraseFirstVid]
      | cons p ps ih =>
        obtain ⟨pv, pt⟩ := p
        simp only [eraseFirstVid]
        split
        · simp
        · simp; omega
  · simp [QueueServer.popQ, QueueServer.recordLen, hx]
  · simp only [QueueServer.removeQ, QueueServer.popQ, QueueServer.recordLen, hx]
    refine lt_of_le_of_lt (Nat.add_le_add_right (herase _ _) _) ?_
    simp
  · simp only [QueueServer.removeQ, QueueServer.popQ, QueueServer.recordLen, hx]
    refine lt_of_le_of_lt (Nat.add_le_add_left (herase _ _) _) ?_
    simp
  · simp [QueueServer.popQ, QueueServer.recordLen, hr]
  · simp only [QueueServer.removeQ, QueueServer.popQ, QueueServer.recordLen, hr]
    refine lt_of_le_of_lt (Nat.add_le_add_left (herase _ _) _) ?_
    simp

/-- Pipes_River.release_tubes: a shared entity releases the ceiling of
the combined headcount over two only when its partner is no longer in
the in-service list; a non-shared entity releases the ceiling of its own
headcount over two. The Python code floors the counter at zero with
max(0, occupied); truncated natural subtraction models that exactly. -/
def releaseTubes (users : List Visitor) (occ : Nat) (v : Visitor) : Nat :=
  if v.is_shared_tube then
    match v.tube_partner with
    | some p =>
      if users.any (fun u => u.vid = p.1) then occ
      else occ - ceilDiv (v.group_size + p.2) pipesPeoplePerTube
    | none => occ
  else occ - ceilDiv v.group_size pipesPeoplePerTube

/-- Remove the first visitor with the given vid from an in-service list
(Python list.remove by object identity). -/
def eraseFirstVisitorVid : List Visitor → Nat → List Visitor
  | [], _ => []
  | u :: rest, i => if u.vid = i then rest else u :: eraseFirstVisitorVid rest i

/-- The Pipes-River part of EndFacilityEvent.handle (Event.py): the
visitor is first removed from users_in_service (when present) and only
then are tubes released, so the partner check of release_tubes runs
against the list without the exiting visitor. -/
def endFacilityPipesStep (users : List Visitor) (occ : Nat) (v : Visitor) :
    List Visitor × Nat :=
  let users1 :=
    if users.any (fun u => u.vid = v.vid) then eraseFirstVisitorVid users v.vid else users
  (users1, releaseTubes users1 occ v)

/-!
Single_Slide (facilities.py) and the Single Slide branch of
Simulation.try_start_facility. Clock values are minutes-of-day
(hour * 60 + minute + second / 60 as in the source conversions).
-/

def singleSlideCapacity : Nat := 6

def singleSlideSafetyInterval : ℚ := 1 / 2

def singleSlideNumSlides : Nat := 2

/-- Single_Slide.can_enter: capacity check plus at-least-one-slide
cooldown check. -/
def singleSlideCanEnter (users : List Visitor) (lasts : List ℚ) (m : ℚ) : Bool :=
  if singleSlideCapacity ≤ users.length then false
  else lasts.any (fun last => singleSlideSafetyInterval ≤ m - last)

/-- Single_Slide.get_available_slide: index of the first slide whose
last entry is at least the safety interval ago. -/
def getAvailableSlide (lasts : List ℚ) (m : ℚ) : Option Nat :=
  lasts.findIdx? (fun last => singleSlideSafetyInterval ≤ m - last)

/-- The Single Slide branch of Simulation.try_start_facility: while a
queue is non-empty and a slide is off cooldown, pop express first (else
regular), stamp the slide's last-entry time, and append the visitor to
the in-service list. Note the branch never consults can_enter, so no
capacity check occurs here. -/
def singleSlideLoop (exq req : QueueServer) (lasts : List ℚ) (users : List Visitor)
    (m : ℚ) : QueueServer × QueueServer × List ℚ × List Visitor :=
  if exq.server_queue = [] ∧ req.server_queue = [] then (exq, req, lasts, users)
  else
    match getAvailableSlide lasts m with
    | none => (exq, req, lasts, users)
    | some i =>
      match hx : exq.server_queue with
      | (v, _) :: _ =>
        singleSlideLoop (exq.popQ m).1 req (lasts.set i m) (users ++ [v]) m
      | [] =>
        match hr : req.server_queue with
        | (v, _) :: _ =>
          singleSlideLoop exq (req.popQ m).1 (lasts.set i m) (users ++ [v]) m
        | [] => (exq, req, lasts, users)
termination_by exq.server_queue.length + req.server_queue.length
decreasing_by
  · simp [QueueServer.popQ, QueueServer.recordLen, hx]
  · simp [QueueServer.popQ, QueueServer.recordLen, hr]

/-!
Snorkel_Tour (facilities.py) and the Snorkel Tour branch of
Simulation.try_start_facility.
-/

def snorkelTourCapacity : Nat := 30

/-- One instructor's state dictionary. -/
structure InstructorState where
  available : Bool
  on_tour : Bool
  on_break : Bool
  on_lunch : Bool
  finish_time : ℚ
deriving DecidableEq, Repr

def instructorInit : InstructorState :=
  { available := true, on_tour := false, on_break := false, on_lunch := false,
    finish_time := 0 }

/-- Snorkel_Tour.get_available_instructor: none during the restricted
window 12:20 to 14:00 (740 to 840 minutes of day); otherwise the first
instructor that is available and past its finish time. The argument m is
current_minutes = hour * 60 + minute. -/
def getAvailableInstructor (insts : List InstructorState) (m : ℚ) : Option Nat :=
  if 740 ≤ m ∧ m < 840 then none
  else insts.findIdx? (fun st => st.available && decide (st.finish_time ≤ m))

/-- Snorkel_Tour.start_tour. -/
def startTour (insts : List InstructorState) (i : Nat) (m dur : ℚ) : List InstructorState :=
  insts.set i { insts.getD i instructorInit with
                  available := false, on_tour := true, finish_time := m + dur }

/-- Snorkel_Tour.finish_tour: tour ends, instructor goes on a 30-minute
break. -/
def finishTour (insts : List InstructorState) (i : Nat) (m : ℚ) : List InstructorState :=
  insts.set i { insts.getD i instructorInit with
                  on_tour := false, on_break := true, finish_time := m + 30 }

/-- The tour-filling loop of the Snorkel Tour branch of
try_start_facility: greedily take queue heads, express first, while the
accumulated headcount stays within the tour capacity; stop as soon as
the next head would overflow. -/
def fillTour (cap : Nat) (exq req : QueueServer) (m : ℚ) (tour : List Visitor)
    (ts : Nat) : List Visitor × Nat × QueueServer × QueueServer :=
  if ts < cap ∧ (exq.server_queue ≠ [] ∨ req.server_queue ≠ []) then
    match hx : exq.server_queue with
    | (v, _) :: _ =>
      if ts + v.group_size ≤ cap then
        fillTour cap (exq.popQ m).1 req m (tour ++ [v]) (ts + v.group_size)
      else (tour, ts, exq, req)
    | [] =>
      match hr : req.server_queue with
      | (v, _) :: _ =>
        if ts + v.group_size ≤ cap then
          fillTour cap exq (req.popQ m).1 m (tour ++ [v]) (ts + v.group_size)
        else (tour, ts, exq, req)
      | [] => (tour, ts, exq, req)
  else (tour, ts, exq, req)
termination_by exq.server_queue.length + req.server_queue.length
decreasing_by
  · simp [QueueServer.popQ, QueueServer.recordLen, hx]
  · simp [QueueServer.popQ, QueueServer.recordLen, hr]

/-- The Snorkel Tour branch of Simulation.try_start_facility: a tour
starts only when get_available_instructor yields an instructor and a
queue is non-empty; the assembled group is appended to users_in_service
and the instructor is marked on tour. The tour duration, sampled in the
source, is the dur parameter. -/
def snorkelTryStart (insts : List InstructorState) (exq req : QueueServer)
    (users : List Visitor) (m dur : ℚ) :
    List InstructorState × QueueServer × QueueServer × List Visitor :=
  match getAvailableInstructor insts m with
  | none => (insts, exq, req, users)
  | some i =>
    if exq.server_queue ≠ [] ∨ req.server_queue ≠ [] then
      let r := fillTour snorkelTourCapacity exq req m [] 0
      if r.1 ≠ [] then (startTour insts i m dur, r.2.2.1, r.2.2.2, users ++ r.1)
      else (insts, r.2.2.1, r.2.2.2, users)
    else (insts, exq, req, users)

/-!
Waves_Pool / Kids_Pool (facilities.py) and their branch of
Simulation.try_start_facility.
-/

/-- Waves_Pool.can_enter and Kids_Pool.can_enter: the group fits the
remaining headcount capacity. -/
def poolCanEnter (users : List Visitor) (cap gs : Nat) : Bool :=
  decide (sizeSum users + gs ≤ cap)

/-- The Wave/Kids Pool branch of try_start_facility: scan the express
queue for the first group that fits, admit it (pop the head or remove a
later group), restart; when no express group fits, scan regular; stop
when neither queue admits anyone. The loop in the source terminates
because every admission removes one group from a queue; the fuel
argument, initialised to the total number of queued groups, bounds the
iterations of this embedding. -/
def poolTryStartF (cap : Nat) (m : ℚ) :
    Nat → QueueServer → QueueServer → List Visitor →
      QueueServer × QueueServer × List Visitor
  | 0, exq, req, users => (exq, req, users)
  | fuel + 1, exq, req, users =>
    if exq.server_queue = [] ∧ req.server_queue = [] then (exq, req, users)
    else
      match (queueVisitors exq).findIdx? (fun v => poolCanEnter users cap v.group_size) with
      | some i =>
        let v := ((queueVisitors exq).get? i).getD dummyVisitor
        let exq1 := if i = 0 then (exq.popQ m).1 else exq.removeQ v m
        poolTryStartF cap m fuel exq1 req (users ++ [v])
      | none =>
        match (queueVisitors req).findIdx? (fun v => poolCanEnter users cap v.group_size) with
        | some j =>
          let v := ((queueVisitors req).get? j).getD dummyVisitor
          let req1 := if j = 0 then (req.popQ m).1 else req.removeQ v m
          poolTryStartF cap m fuel exq req1 (users ++ [v])
        | none => (exq, req, users)

/-- Entry point of the Wave/Kids Pool admission pass. -/
def poolTryStart (cap : Nat) (exq req : QueueServer) (users : List Visitor) (m : ℚ) :
    QueueServer × QueueServer × List Visitor :=
  poolTryStartF cap m (exq.server_queue.length + req.server_queue.length) exq req users

/-!
Sampling_Algorithms (sampling_algorithms.py). Only the deterministic
photo-purchase tariff and the Box-Muller normal sampler are needed by
the claims; the sampler takes its two uniform draws as arguments, since
the Python code reads them from the global random stream.
-/

/-- Sampling_Algorithms.get_photo_purchase_decision, reduced to the
price it yields: below 6 no purchase (0), then 20, 100, 120 by rating
tier. The revenue added by the callers equals this price, because the
package is None exactly when the price is 0. -/
def photoPurchasePrice (finalRating : ℚ) : ℚ :=
  if finalRating < 6 then 0
  else if finalRating < 15 / 2 then 20
  else if finalRating < 17 / 2 then 100
  else 120

/-- Sampling_Algorithms.sample_normal via the Box-Muller transform, on
the reals (the Python floats approximate real arithmetic; the claim
about sign does not depend on rounding). u1 and u2 are the two uniform
draws. -/
noncomputable def sample_normal (mu sigma u1 u2 : ℝ) : ℝ :=
  mu + sigma * (Real.sqrt (-2 * Real.log u1) * Real.cos (2 * Real.pi * u2))

/-- Sampling_Algorithms.sample_big_pipes_slide_duration: a single call
to sample_normal with mu 4.8 and sigma 1.8322 and no further check. -/
noncomputable def sample_big_pipes_slide_duration (u1 u2 : ℝ) : ℝ :=
  sample_normal 4.8 1.8322 u1 u2

/-!
Family and SubGroup (entities.py), the family completion counter, and
the global completion bookkeeping mutated by the exit paths of Event.py.
-/

/-- The Family fields read and written by the verified paths. The
counter is an integer, as in Python. -/
structure FamilyState where
  num_kids : Nat
  kids_ages : List ℚ
  group_size : Nat
  rating : ℚ
  has_express_pass : Bool
  is_split : Bool
  active_subgroups_count : ℤ
  departure_time : ℚ
deriving DecidableEq, Repr

/-- Family.__init__ with the sampled inputs as arguments: group size is
num_kids + 2, the rating starts at 10, and active_subgroups_count
starts at 1. -/
def familyInit (numKids : Nat) (ages : List ℚ) (dep : ℚ) (express : Bool) : FamilyState :=
  { num_kids := numKids, kids_ages := ages, group_size := numKids + 2, rating := 10,
    has_express_pass := express, is_split := false, active_subgroups_count := 1,
    departure_time := dep }

/-- The data of one SubGroup created by a split. -/
structure SubGroupSpec where
  size : Nat
  min_age : ℚ
  has_express_pass : Bool
  rating : ℚ
deriving DecidableEq, Repr

/-- Python min over a list, with a default for the empty case (the
source only applies min to non-empty lists). -/
def listMinD : List ℚ → ℚ → ℚ
  | [], d => d
  | x :: xs, _ => xs.foldl min x

def subSizeSum (l : List SubGroupSpec) : Nat := (l.map SubGroupSpec.size).sum

/-- Family.check_and_split with the two random draws as arguments: on a
split, kids under 8 join one parent, kids 12 and over may form a
parent-less group (when the group budget allows), the remainder joins
the other parent with min age from the 8-to-12 bucket or 14; fewer than
two formed groups cancels the split; otherwise active_subgroups_count
is set to the number of subgroups. An empty subgroup list in the result
means the family proceeds intact. -/
def checkAndSplit (fam : FamilyState) (shouldSplit : Bool) (numGroups : Nat) :
    FamilyState × List SubGroupSpec :=
  if !shouldSplit then (fam, [])
  else
    let under8 := fam.kids_ages.filter (fun a => a < 8)
    let mid := fam.kids_ages.filter (fun a => 8 ≤ a ∧ a < 12)
    let over12 := fam.kids_ages.filter (fun a => 12 ≤ a)
    let g1 : List SubGroupSpec :=
      if under8 ≠ [] then
        [⟨1 + under8.length, listMinD under8 14, fam.has_express_pass, fam.rating⟩]
      else []
    let g2 :=
      if over12 ≠ [] ∧ g1.length < numGroups then
        g1 ++ [⟨over12.length, listMinD over12 14, fam.has_express_pass, fam.rating⟩]
      else g1
    let g3 :=
      if g2.length < numGroups then
        let remaining := fam.group_size - subSizeSum g2
        if 0 < remaining then
          g2 ++ [⟨remaining, listMinD mid 14, fam.has_express_pass, fam.rating⟩]
        else g2
      else g2
    if g3.length < 2 then ({ fam with is_split := false }, [])
    else ({ fam with is_split := true, active_subgroups_count := g3.length }, g3)

/-- The global completion bookkeeping of Simulation touched by the exit
paths: the ratings list, the completion counters and the revenue. -/
structure Globals where
  ratings : List ℚ
  total_entities_completed : Nat
  total_people_completed : Nat
  total_revenue : ℚ
deriving DecidableEq, Repr

/-- The booking performed on completion everywhere in Event.py: photo
revenue by rating tier, append the rating, count one entity and size
people. -/
def bookCompletion (g : Globals) (rating : ℚ) (size : Nat) : Globals :=
  { ratings := g.ratings ++ [rating],
    total_entities_completed := g.total_entities_completed + 1,
    total_people_completed := g.total_people_completed + size,
    total_revenue := g.total_revenue + photoPurchasePrice rating }

/-- EndFacilityEvent.handle, exit of a SubGroup (Event.py): decrement
the parent family's counter and book the family (with its rating and
full size) exactly when the counter reaches zero. -/
def endFacilityExitSubGroup (fam : FamilyState) (g : Globals) : FamilyState × Globals :=
  let fam1 := { fam with active_subgroups_count := fam.active_subgroups_count - 1 }
  if fam1.active_subgroups_count = 0 then
    (fam1, bookCompletion g fam1.rating fam1.group_size)
  else (fam1, g)

/-- EndFacilityEvent.handle, exit of an un-split Family: the counter is
set to zero and the family is booked. -/
def endFacilityExitFamily (fam : FamilyState) (g : Globals) : FamilyState × Globals :=
  let fam1 := { fam with active_subgroups_count := 0 }
  if fam1.active_subgroups_count = 0 then
    (fam1, bookCompletion g fam1.rating fam1.group_size)
  else (fam1, g)

/-- EndMealEvent.handle, exit of a Family or SubGroup: the counter is
decremented (for both variants) and the family is booked exactly when
it reaches zero. -/
def endMealExitFamilial (fam : FamilyState) (g : Globals) : FamilyState × Globals :=
  let fam1 := { fam with active_subgroups_count := fam.active_subgroups_count - 1 }
  if fam1.active_subgroups_count = 0 then
    (fam1, bookCompletion g fam1.rating fam1.group_size)
  else (fam1, g)

/-- AbandonmentEvent.handle, exit path for a non-TeenGroup visitor with
no next facility (Event.py): the exiting entity itself is booked with
its own rating and its own size, and the parent family's state,
including active_subgroups_count, is not touched. -/
def abandonmentExitEntity (entityRating : ℚ) (entitySize : Nat) (fam : FamilyState)
    (g : Globals) : FamilyState × Globals :=
  (fam, bookCompletion g entityRating entitySize)

/-!
Simulation.force_close_park (Simulation.py): iterate the seven ride
facilities, completing every visitor in an in-service set or a facility
queue that is not yet in the completed set. Restaurants hold their own
queues but are not visited by this pass.
-/

structure FacilityState where
  users_in_service : List Visitor
  queue_regular : QueueServer
  queue_express : QueueServer
deriving Repr

structure RestaurantState where
  queue : QueueServer
deriving Repr

structure SimState where
  facilities : List FacilityState
  restaurants : List RestaurantState
  visitors_completed : List Visitor
  ratings : List ℚ
  total_entities_entered : Nat
  total_people_entered : Nat
  total_entities_completed : Nat
  total_people_completed : Nat
  total_revenue : ℚ
deriving Repr

/-- Simulation._complete_visitor. -/
def completeVisitor (s : SimState) (v : Visitor) : SimState :=
  { s with ratings := s.ratings ++ [v.rating],
           visitors_completed := s.visitors_completed ++ [v],
           total_entities_completed := s.total_entities_completed + 1,
           total_people_completed := s.total_people_completed + v.group_size,
           total_revenue := s.total_revenue + photoPurchasePrice v.rating }

/-- Membership of a visitor in the completed set, modelling the Python
identity-based set by vid. -/
def inCompleted (done : List Visitor) (v : Visitor) : Bool :=
  done.any (fun u => u.vid = v.vid)

/-- One visitor of the force-close sweep: complete it unless already in
the completed set, and add it to the set. -/
def forceCloseStep (acc : SimState × List Visitor) (v : Visitor) : SimState × List Visitor :=
  if inCompleted acc.2 v then acc else (completeVisitor acc.1 v, acc.2 ++ [v])

/-- One facility of the force-close sweep: the in-service list, then the
regular queue, then the express queue. -/
def forceCloseFacility (acc : SimState × List Visitor) (f : FacilityState) :
    SimState × List Visitor :=
  let acc1 := f.users_in_service.foldl forceCloseStep acc
  let acc2 := (queueVisitors f.queue_regular).foldl forceCloseStep acc1
  (queueVisitors f.queue_express).foldl forceCloseStep acc2

/-- Simulation.force_close_park: seed the completed set from
visitors_completed and sweep the facilities. Restaurant queues and
visitors currently eating are not visited. -/
def forceClosePark (s : SimState) : SimState :=
  (s.facilities.foldl forceCloseFacility (s, s.visitors_completed)).1

/-!
Concrete scenarios exercising the Single Slide and Snorkel Tour
try-start branches. Each step corresponds to a try_start_facility call
triggered by an ArriveAtFacility event; no EndFacility event fires in
between (Single Slide rides last 3 minutes, so rides started from
minute 600 on are all still in service at minute 601.5; the first tour
started at minute 600 with duration 30 ends at minute 630, after the
second tour starts at 610).
-/

/-- A single visitor (group size 1). -/
def ssv (n : Nat) : Visitor := ⟨n, 1, 10, false, none⟩

/-- A teen group of six. -/
def teen6 (n : Nat) : Visitor := ⟨n, 6, 10, false, none⟩

def singleSlideScenario1 : QueueServer × QueueServer × List ℚ × List Visitor :=
  singleSlideLoop { server_queue := [(ssv 1, 600), (ssv 2, 600)] } QueueServer.init
    [-1000, -1000] [] 600

def singleSlideScenario2 : QueueServer × QueueServer × List ℚ × List Visitor :=
  singleSlideLoop
    ((singleSlideScenario1.1.addQ (ssv 3) (1201 / 2)).addQ (ssv 4) (1201 / 2))
    singleSlideScenario1.2.1 singleSlideScenario1.2.2.1 singleSlideScenario1.2.2.2
    (1201 / 2)

def singleSlideScenario3 : QueueServer × QueueServer × List ℚ × List Visitor :=
  singleSlideLoop
    ((singleSlideScenario2.1.addQ (ssv 5) 601).addQ (ssv 6) 601)
    singleSlideScenario2.2.1 singleSlideScenario2.2.2.1 singleSlideScenario2.2.2.2 601

def singleSlideScenario4 : QueueServer × QueueServer × List ℚ × List Visitor :=
  singleSlideLoop
    ((singleSlideScenario3.1.addQ (ssv 7) (1203 / 2)).addQ (ssv 8) (1203 / 2))
    singleSlideScenario3.2.1 singleSlideScenario3.2.2.1 singleSlideScenario3.2.2.2
    (1203 / 2)

def snorkelScenarioQ1 : QueueServer :=
  { server_queue := [(teen6 11, 600), (teen6 12, 600), (teen6 13, 600),
      (teen6 14, 600), (teen6 15, 600)] }

def snorkelScenario1 : List InstructorState × QueueServer × QueueServer × List Visitor :=
  snorkelTryStart [instructorInit, instructorInit] snorkelScenarioQ1 QueueServer.init
    [] 600 30

def snorkelScenario2 : List InstructorState × QueueServer × QueueServer × List Visitor :=
  snorkelTryStart snorkelScenario1.1
    (snorkelScenario1.2.1.addQ (teen6 16) 610)
    snorkelScenario1.2.2.1 snorkelScenario1.2.2.2 610 30

/-- Express queue holding one group of exactly eight, for exercising a
successful Big Pipes batch. -/
def bigPipesReadyQueue : QueueServer :=
  { server_queue := [(⟨21, 8, 10, false, none⟩, 600)] }

theorem recordLen_server (q : QueueServer) (t : ℚ) :
    (q.recordLen t).server_queue = q.server_queue := by
  simp [QueueServer.recordLen]

theorem recordLen_waiting (q : QueueServer) (t : ℚ) :
    (q.recordLen t).waiting_times = q.waiting_times := by
  simp [QueueServer.recordLen]

theorem recordLen_changes (q : QueueServer) (t : ℚ) :
    (q.recordLen t).queue_change_times = q.queue_change_times ++ [t] := by
  simp [QueueServer.recordLen]

theorem popQ_server (q : QueueServer) (t : ℚ) (v : Visitor) (arr : ℚ)
    (rest : List (Visitor × ℚ)) (hq : q.server_queue = (v, arr) :: rest) :
    ((q.popQ t).1).server_queue = rest := by
  simp [QueueServer.popQ, QueueServer.recordLen, hq]

theorem popQ_waiting (q : QueueServer) (t : ℚ) (v : Visitor) (arr : ℚ)
    (rest : List (Visitor × ℚ)) (hq : q.server_queue = (v, arr) :: rest) :
    ((q.popQ t).1).waiting_times = q.waiting_times ++ [t - arr] := by
  simp [QueueServer.popQ, QueueServer.recordLen, hq]

theorem popQ_changes (q : QueueServer) (t : ℚ) (v : Visitor) (arr : ℚ)
    (rest : List (Visitor × ℚ)) (hq : q.server_queue = (v, arr) :: rest) :
    ((q.popQ t).1).queue_change_times = q.queue_change_times ++ [t] := by
  simp [QueueServer.popQ, QueueServer.recordLen, hq]

theorem insertQ_zero_server (q : QueueServer) (v : Visitor) (t : ℚ) :
    (q.insertQ 0 v t).server_queue = (v, t) :: q.server_queue := by
  simp [QueueServer.insertQ, QueueServer.recordLen, listInsertAt]

theorem insertQ_waiting (q : QueueServer) (idx : Nat) (v : Visitor) (t : ℚ) :
    (q.insertQ idx v t).waiting_times = q.waiting_times := by
  simp [QueueServer.insertQ, QueueServer.recordLen]

theorem insertQ_changes (q : QueueServer) (idx : Nat) (v : Visitor) (t : ℚ) :
    (q.insertQ idx v t).queue_change_times = q.queue_change_times ++ [t] := by
  simp [QueueServer.insertQ, QueueServer.recordLen]

theorem rollbackQ_cons (q : QueueServer) (p : Visitor × ℚ) (ps : List (Visitor × ℚ)) :
    rollbackQ q (p :: ps) = QueueServer.insertQ (rollbackQ q ps) 0 p.1 p.2 := by
  simp [rollbackQ, List.foldl_append]

theorem rollbackQ_server (q : QueueServer) (temp : List (Visitor × ℚ)) :
    (rollbackQ q temp).server_queue = temp ++ q.server_queue := by
  induction temp with
  | nil => simp [rollbackQ]
  | cons p ps ih => rw [rollbackQ_cons, insertQ_zero_server, ih]; simp

theorem rollbackQ_waiting (q : QueueServer) (temp : List (Visitor × ℚ)) :
    (rollbackQ q temp).waiting_times = q.waiting_times := by
  induction temp with
  | nil => simp [rollbackQ]
  | cons p ps ih => rw [rollbackQ_cons, insertQ_waiting, ih]

theorem rollbackQ_changes_len (q : QueueServer) (temp : List (Visitor × ℚ)) :
    (rollbackQ q temp).queue_change_times.length =
      q.queue_change_times.length + temp.length := by
  induction temp with
  | nil => simp [rollbackQ]
  | cons p ps ih => rw [rollbackQ_cons, insertQ_changes]; simp [ih]; omega

theorem sizeSum_nil : sizeSum [] = 0 := rfl

theorem sizeSum_cons (v : Visitor) (l : List Visitor) :
    sizeSum (v :: l) = v.group_size + sizeSum l := by
  simp [sizeSum]

theorem sizeSum_append (a b : List Visitor) :
    sizeSum (a ++ b) = sizeSum a + sizeSum b := by
  simp [sizeSum]

theorem takeLoop_nil (E : Nat) (t : ℚ) (q : QueueServer) (bs : Nat) (batch : List Visitor)
    (temp : List (Visitor × ℚ)) (hq : q.server_queue = []) :
    takeLoop E t q bs batch temp = ⟨q, bs, batch, temp, false⟩ := by
  rw [takeLoop.eq_def, hq]

theorem takeLoop_cons (E : Nat) (t : ℚ) (q : QueueServer) (bs : Nat) (batch : List Visitor)
    (temp : List (Visitor × ℚ)) (v : Visitor) (arr : ℚ) (rest : List (Visitor × ℚ))
    (hq : q.server_queue = (v, arr) :: rest) :
    takeLoop E t q bs batch temp =
      if bs < E then
        if bs + v.group_size ≤ E then
          if bs + v.group_size = E then
            ⟨(q.popQ t).1, bs + v.group_size, batch ++ [v], temp ++ [(v, arr)], true⟩
          else
            takeLoop E t (q.popQ t).1 (bs + v.group_size) (batch ++ [v]) (temp ++ [(v, arr)])
        else ⟨q, bs, batch, temp, false⟩
      else ⟨q, bs, batch, temp, false⟩ := by
  rw [takeLoop.eq_def, hq]

/-- Loop invariant of the take loops of get_next_batch: the loop pops a
prefix of length k of the queue, extends the batch by exactly the
visitors of that prefix, adds their headcount to the running sum,
appends one waiting-time entry per popped pair and one queue-length
sample per popped pair, and reports done only when the running sum hits
exactly E (having popped at least one pair). -/
theorem takeLoop_spec (E : Nat) (t : ℚ) :
    ∀ (n : Nat) (q : QueueServer), q.server_queue.length ≤ n →
      ∀ (bs : Nat) (batch : List Visitor) (temp : List (Visitor × ℚ)),
      ∃ k, k ≤ q.server_queue.length ∧
        (takeLoop E t q bs batch temp).temp = temp ++ q.server_queue.take k ∧
        (takeLoop E t q bs batch temp).batch =
          batch ++ (q.server_queue.take k).map Prod.fst ∧
        (takeLoop E t q bs batch temp).bs =
          bs + sizeSum ((q.server_queue.take k).map Prod.fst) ∧
        (takeLoop E t q bs batch temp).q.server_queue = q.server_queue.drop k ∧
        (takeLoop E t q bs batch temp).q.waiting_times =
          q.waiting_times ++ (q.server_queue.take k).map (fun p => t - p.2) ∧
        (takeLoop E t q bs batch temp).q.queue_change_times.length =
          q.queue_change_times.length + k ∧
        ((takeLoop E t q bs batch temp).done = true →
          (takeLoop E t q bs batch temp).bs = E ∧ 1 ≤ k) := by
  intro n
  induction n with
  | zero =>
    intro q hlen bs batch temp
    have hq : q.server_queue = [] := by
      cases h : q.server_queue with
      | nil => rfl
      | cons a l => rw [h] at hlen; simp at hlen
    refine ⟨0, ?_⟩
    rw [takeLoop_nil E t q bs batch temp hq]
    simp [hq, sizeSum]
  | succ n ih =>
    intro q hlen bs batch temp
    cases hq : q.server_queue with
    | nil =>
      refine ⟨0, ?_⟩
      rw [takeLoop_nil E t q bs batch temp hq]
      simp [hq, sizeSum]
    | cons p rest =>
      obtain ⟨v, arr⟩ := p
      rw [takeLoop_cons E t q bs batch temp v arr rest hq]
      by_cases h1 : bs < E
      · by_cases h2 : bs + v.group_size ≤ E
        · by_cases h3 : bs + v.group_size = E
          · refine ⟨1, ?_⟩
            rw [if_pos h1, if_pos h2, if_pos h3]
            refine ⟨by simp, ?_, ?_, ?_, ?_, ?_, ?_, ?_⟩
            · simp
            · simp
            · simp [sizeSum]
            · simp [popQ_server q t v arr rest hq]
            · simp [popQ_waiting q t v arr rest hq]
            · rw [popQ_changes q t v arr rest hq]; simp
            · intro _; exact ⟨h3, le_refl 1⟩
          · have hlen1 : ((q.popQ t).1).server_queue.length ≤ n := by
              rw [popQ_server q t v arr rest hq]
              rw [hq] at hlen; simp at hlen; omega
            obtain ⟨k, hk, htemp, hbatch, hbs, hserver, hwait, hchange, hdone⟩ :=
              ih ((q.popQ t).1) hlen1 (bs + v.group_size) (batch ++ [v]) (temp ++ [(v, arr)])
            rw [popQ_server q t v arr rest hq] at hk htemp hbatch hbs hserver hwait
            rw [popQ_waiting q t v arr rest hq] at hwait
            rw [popQ_changes q t v arr rest hq] at hchange
            refine ⟨k + 1, ?_⟩
            rw [if_pos h1, if_pos h2, if_neg h3]
            refine ⟨?_, ?_, ?_, ?_, ?_, ?_, ?_, ?_⟩
            · simp; omega
            · rw [htemp]; simp [List.take_succ_cons]
            · rw [hbatch]; simp [List.take_succ_cons]
            · rw [hbs]; simp [List.take_succ_cons, sizeSum_cons]; omega
            · rw [hserver]; simp [List.drop_succ_cons]
            · rw [hwait]; simp [List.take_succ_cons]
            · rw [hchange]; simp; omega
            · intro hd; obtain ⟨he, hk1⟩ := hdone hd; exact ⟨he, by omega⟩
        · refine ⟨0, ?_⟩
          rw [if_pos h1, if_neg h2]
          simp [hq, sizeSum]
      · refine ⟨0, ?_⟩
        rw [if_neg h1]
        simp [hq, sizeSum]

theorem getNextBatch_eq (E : Nat) (t : ℚ) (exq req : QueueServer) :
    getNextBatch E t exq req =
      if queueSizes exq + queueSizes req < E then ([], exq, req)
      else
        let r1 := takeLoop E t exq 0 [] []
        if r1.done then (r1.batch, r1.q, req)
        else
          let r2 := takeLoop E t req r1.bs r1.batch []
          if r2.done then (r2.batch, r1.q, r2.q)
          else ([], rollbackQ r1.q r1.temp, rollbackQ r2.q r2.temp) := rfl

/-- C5: get_next_batch for the Big and Small Pipes Slides either returns
the empty list with both queue contents untouched (in their original
order), or returns a batch of headcount exactly the tube size E that
consists of a prefix of the express queue followed by a prefix of the
regular queue, those prefixes having been removed from the queues. -/
theorem C5_pipes_batch_exact_or_rollback (E : Nat) (t : ℚ) (exq req : QueueServer) :
    ((getNextBatch E t exq req).1 = [] ∧
        (getNextBatch E t exq req).2.1.server_queue = exq.server_queue ∧
        (getNextBatch E t exq req).2.2.server_queue = req.server_queue) ∨
      (sizeSum (getNextBatch E t exq req).1 = E ∧
        ∃ ke kr,
          (getNextBatch E t exq req).1 =
            (exq.server_queue.take ke).map Prod.fst ++
              (req.server_queue.take kr).map Prod.fst ∧
          (getNextBatch E t exq req).2.1.server_queue = exq.server_queue.drop ke ∧
          (getNextBatch E t exq req).2.2.server_queue = req.server_queue.drop kr) := by
  obtain ⟨ke, hke, htempE, hbatchE, hbsE, hservE, hwaitE, hchgE, hdoneE⟩ :=
    takeLoop_spec E t exq.server_queue.length exq (le_refl _) 0 [] []
  by_cases h0 : queueSizes exq + queueSizes req < E
  · left
    rw [getNextBatch_eq, if_pos h0]
    exact ⟨rfl, rfl, rfl⟩
  · by_cases h1 : (takeLoop E t exq 0 [] []).done = true
    · right
      have hgnb : getNextBatch E t exq req =
          ((takeLoop E t exq 0 [] []).batch, (takeLoop E t exq 0 [] []).q, req) := by
        rw [getNextBatch_eq, if_neg h0]
        simp only [h1, if_true]
      rw [hgnb]
      dsimp only
      obtain ⟨hE, hk1⟩ := hdoneE h1
      refine ⟨?_, ke, 0, ?_, ?_, ?_⟩
      · rw [hbatchE, List.nil_append]
        omega
      · rw [hbatchE, List.nil_append]
        simp
      · exact hservE
      · simp
    · obtain ⟨kr, hkr, htempR, hbatchR, hbsR, hservR, hwaitR, hchgR, hdoneR⟩ :=
        takeLoop_spec E t req.server_queue.length req (le_refl _)
          (takeLoop E t exq 0 [] []).bs (takeLoop E t exq 0 [] []).batch []
      by_cases h2 : (takeLoop E t req (takeLoop E t exq 0 [] []).bs
          (takeLoop E t exq 0 [] []).batch []).done = true
      · right
        have hgnb : getNextBatch E t exq req =
            ((takeLoop E t req (takeLoop E t exq 0 [] []).bs
                (takeLoop E t exq 0 [] []).batch []).batch,
             (takeLoop E t exq 0 [] []).q,
             (takeLoop E t req (takeLoop E t exq 0 [] []).bs
                (takeLoop E t exq 0 [] []).batch []).q) := by
          rw [getNextBatch_eq, if_neg h0]
          simp only [h1, if_false, h2, if_true, Bool.false_eq_true]
        rw [hgnb]
        dsimp only
        obtain ⟨hE2, hk2⟩ := hdoneR h2
        refine ⟨?_, ke, kr, ?_, ?_, ?_⟩
        · rw [hbatchR, sizeSum_append, hbatchE, List.nil_append]
          omega
        · rw [hbatchR, hbatchE, List.nil_append]
        · exact hservE
        · exact hservR
      · left
        have hgnb : getNextBatch E t exq req =
            ([], rollbackQ (takeLoop E t exq 0 [] []).q (takeLoop E t exq 0 [] []).temp,
             rollbackQ (takeLoop E t req (takeLoop E t exq 0 [] []).bs
                (takeLoop E t exq 0 [] []).batch []).q
               (takeLoop E t req (takeLoop E t exq 0 [] []).bs
                (takeLoop E t exq 0 [] []).batch []).temp) := by
          rw [getNextBatch_eq, if_neg h0]
          simp only [h1, h2, if_false, Bool.false_eq_true]
        rw [hgnb]
        dsimp only
        refine ⟨rfl, ?_, ?_⟩
        · rw [rollbackQ_server, htempE, hservE, List.nil_append, List.take_append_drop]
        · rw [rollbackQ_server, htempR, hservR, List.nil_append, List.take_append_drop]

/-- C10: when get_next_batch fails to assemble a batch and returns the
empty list, the visitor contents and order of both queues are restored,
but the statistics are mutated: each popped-and-reinserted visitor
leaves one waiting-time entry on its origin queue (recorded by pop at
the current time against the original arrival time), and each pop and
each reinsertion appends one queue-length sample, so the failure path
feeds the per-day waiting-time statistics. -/
theorem C10_rollback_mutates_statistics (E : Nat) (t : ℚ) (exq req : QueueServer)
    (h : (getNextBatch E t exq req).1 = []) :
    ∃ ke kr,
      (getNextBatch E t exq req).2.1.server_queue = exq.server_queue ∧
      (getNextBatch E t exq req).2.2.server_queue = req.server_queue ∧
      (getNextBatch E t exq req).2.1.waiting_times =
        exq.waiting_times ++ (exq.server_queue.take ke).map (fun p => t - p.2) ∧
      (getNextBatch E t exq req).2.2.waiting_times =
        req.waiting_times ++ (req.server_queue.take kr).map (fun p => t - p.2) ∧
      (getNextBatch E t exq req).2.1.queue_change_times.length =
        exq.queue_change_times.length + 2 * ke ∧
      (getNextBatch E t exq req).2.2.queue_change_times.length =
        req.queue_change_times.length + 2 * kr := by
  obtain ⟨ke, hke, htempE, hbatchE, hbsE, hservE, hwaitE, hchgE, hdoneE⟩ :=
    takeLoop_spec E t exq.server_queue.length exq (le_refl _) 0 [] []
  by_cases h0 : queueSizes exq + queueSizes req < E
  · refine ⟨0, 0, ?_⟩
    rw [getNextBatch_eq, if_pos h0]
    simp
  · by_cases h1 : (takeLoop E t exq 0 [] []).done = true
    · exfalso
      have hgnb : (getNextBatch E t exq req).1 = (takeLoop E t exq 0 [] []).batch := by
        rw [getNextBatch_eq, if_neg h0]
        simp only [h1, if_true]
      rw [hgnb, hbatchE, List.nil_append] at h
      obtain ⟨hE, hk1⟩ := hdoneE h1
      have hlen := congrArg List.length h
      simp only [List.length_map, List.length_take, List.length_nil] at hlen
      omega
    · obtain ⟨kr, hkr, htempR, hbatchR, hbsR, hservR, hwaitR, hchgR, hdoneR⟩ :=
        takeLoop_spec E t req.server_queue.length req (le_refl _)
          (takeLoop E t exq 0 [] []).bs (takeLoop E t exq 0 [] []).batch []
      by_cases h2 : (takeLoop E t req (takeLoop E t exq 0 [] []).bs
          (takeLoop E t exq 0 [] []).batch []).done = true
      · exfalso
        have hgnb : (getNextBatch E t exq req).1 =
            (takeLoop E t req (takeLoop E t exq 0 [] []).bs
              (takeLoop E t exq 0 [] []).batch []).batch := by
          rw [getNextBatch_eq, if_neg h0]
          simp only [h1, if_false, h2, if_true, Bool.false_eq_true]
        rw [hgnb, hbatchR] at h
        obtain ⟨hE2, hk2⟩ := hdoneR h2
        rw [List.append_eq_nil] at h
        have hlen := congrArg List.length h.2
        simp only [List.length_map, List.length_take, List.length_nil] at hlen
        omega
      · have hgnb : getNextBatch E t exq req =
            ([], rollbackQ (takeLoop E t exq 0 [] []).q (takeLoop E t exq 0 [] []).temp,
             rollbackQ (takeLoop E t req (takeLoop E t exq 0 [] []).bs
                (takeLoop E t exq 0 [] []).batch []).q
               (takeLoop E t req (takeLoop E t exq 0 [] []).bs
                (takeLoop E t exq 0 [] []).batch []).temp) := by
          rw [getNextBatch_eq, if_neg h0]
          simp only [h1, h2, if_false, Bool.false_eq_true]
        refine ⟨ke, kr, ?_, ?_, ?_, ?_, ?_, ?_⟩ <;> rw [hgnb] <;> dsimp only
        · rw [rollbackQ_server, htempE, hservE, List.nil_append, List.take_append_drop]
        · rw [rollbackQ_server, htempR, hservR, List.nil_append, List.take_append_drop]
        · rw [rollbackQ_waiting, hwaitE]
        · rw [rollbackQ_waiting, hwaitR]
        · rw [rollbackQ_changes_len, hchgE, htempE, List.nil_append, List.length_take]
          omega
        · rw [rollbackQ_changes_len, hchgR, htempR, List.nil_append, List.length_take]
          omega

/-- C9: calc_daily_statistics on a queue with no recorded waiting times
and zero accumulated queue-length area appends 0 as the day's average
queue length and 0 as the day's average waiting time, and resets the
per-day counters (area, change times, lengths, waiting times) to the
values a freshly initialised QueueServer has, so the next day starts
from the empty state. -/
theorem C9_calc_daily_statistics_idle (q : QueueServer)
    (hw : q.waiting_times = []) (ha : q.total_queue_length_time = 0) :
    (q.calcDaily).daily_avg_queue_lengths = q.daily_avg_queue_lengths ++ [0] ∧
    (q.calcDaily).daily_avg_waiting_times = q.daily_avg_waiting_times ++ [0] ∧
    (q.calcDaily).total_queue_length_time = QueueServer.init.total_queue_length_time ∧
    (q.calcDaily).queue_change_times = QueueServer.init.queue_change_times ∧
    (q.calcDaily).queue_lengths = QueueServer.init.queue_lengths ∧
    (q.calcDaily).waiting_times = QueueServer.init.waiting_times := by
  unfold QueueServer.calcDaily QueueServer.init
  simp [hw, ha]

theorem C9_calc_daily_statistics_idle_witness :
    ((QueueServer.init).calcDaily).daily_avg_queue_lengths =
        QueueServer.init.daily_avg_queue_lengths ++ [0] ∧
    ((QueueServer.init).calcDaily).daily_avg_waiting_times =
        QueueServer.init.daily_avg_waiting_times ++ [0] ∧
    ((QueueServer.init).calcDaily).total_queue_length_time =
        QueueServer.init.total_queue_length_time ∧
    ((QueueServer.init).calcDaily).queue_change_times =
        QueueServer.init.queue_change_times ∧
    ((QueueServer.init).calcDaily).queue_lengths = QueueServer.init.queue_lengths ∧
    ((QueueServer.init).calcDaily).waiting_times = QueueServer.init.waiting_times :=
  C9_calc_daily_statistics_idle QueueServer.init rfl rfl

/-- C1: the heap tie-break of Event.__lt__ compares id(self), the
object's memory address, not a monotone insertion sequence number. For
two events with identical timestamps the dequeue order follows the
object ids: with ids 1 and 2 the first precedes, and with the same two
events given ids 2 and 1 the order flips, so an insertion sequence
cannot be what decides the order, and runs whose allocator assigns
addresses differently dequeue equal-time events in different orders. -/
theorem C1_tiebreak_is_object_id_not_sequence :
    eventLt { time := 5, objId := 1 } { time := 5, objId := 2 } = true ∧
    eventLt { time := 5, objId := 2 } { time := 5, objId := 1 } = false := by
  decide

/-- C8: sample_big_pipes_slide_duration is a bare call to sample_normal
with no resampling, so a Box-Muller draw with u1 = exp(-8) and u2 = 1/2
yields 4.8 + 1.8322 * (4 * cos pi) = 4.8 - 7.3288 < 0: a negative
service duration is returned and would be scheduled. -/
theorem C8_big_pipes_duration_can_be_negative :
    sample_big_pipes_slide_duration (Real.exp (-8)) (1 / 2) < 0 := by
  unfold sample_big_pipes_slide_duration sample_normal
  rw [Real.log_exp]
  rw [show (-2 : ℝ) * (-8) = 16 by norm_num]
  rw [show (16 : ℝ) = 4 ^ 2 by norm_num, Real.sqrt_sq (by norm_num : (0 : ℝ) ≤ 4)]
  rw [show 2 * Real.pi * (1 / 2 : ℝ) = Real.pi by ring, Real.cos_pi]
  norm_num

/-- C6: no Snorkel Tour can start at a time whose minutes-of-day value m
satisfies 740 ≤ m < 840, that is 12:20 ≤ time-of-day < 14:00: the only
code path that starts a tour (the Snorkel branch of try_start_facility)
first calls get_available_instructor, which returns none throughout the
restricted window, so the whole try-start is a no-op there. -/
theorem C6_no_tour_in_restricted_window (insts : List InstructorState)
    (exq req : QueueServer) (users : List Visitor) (m dur : ℚ)
    (h1 : 740 ≤ m) (h2 : m < 840) :
    snorkelTryStart insts exq req users m dur = (insts, exq, req, users) := by
  unfold snorkelTryStart getAvailableInstructor
  rw [if_pos ⟨h1, h2⟩]

theorem C6_no_tour_in_restricted_window_witness :
    snorkelTryStart [instructorInit, instructorInit] QueueServer.init QueueServer.init
        [] 800 30 =
      ([instructorInit, instructorInit], QueueServer.init, QueueServer.init, []) :=
  C6_no_tour_in_restricted_window [instructorInit, instructorInit] QueueServer.init
    QueueServer.init [] 800 30 (by norm_num) (by norm_num)

/-- C7: Pipes-River tube release on end of service. A non-shared entity
releases the ceiling of its group size over two. For two entities
cross-linked as tube partners, the first exit releases nothing (the
partner is still in the in-service list after the exiting entity has
been removed from it), and the second exit releases exactly the full
shared allocation, the ceiling of the combined size over two. -/
theorem C7_pipes_river_tube_release (a b c : Visitor) (occ : Nat)
    (ha_sh : a.is_shared_tube = true) (hb_sh : b.is_shared_tube = true)
    (hap : a.tube_partner = some (b.vid, b.group_size))
    (hbp : b.tube_partner = some (a.vid, a.group_size))
    (hocc : ceilDiv (a.group_size + b.group_size) pipesPeoplePerTube ≤ occ)
    (hc : c.is_shared_tube = false) :
    (endFacilityPipesStep [a, b] occ a).1 = [b] ∧
    (endFacilityPipesStep [a, b] occ a).2 = occ ∧
    (endFacilityPipesStep [b] occ b).2 =
      occ - ceilDiv (a.group_size + b.group_size) pipesPeoplePerTube ∧
    (endFacilityPipesStep [b] occ b).2
        + ceilDiv (a.group_size + b.group_size) pipesPeoplePerTube = occ ∧
    (endFacilityPipesStep [c] occ c).2 = occ - ceilDiv c.group_size pipesPeoplePerTube := by
  refine ⟨?_, ?_, ?_, ?_, ?_⟩
  · simp [endFacilityPipesStep, eraseFirstVisitorVid]
  · simp [endFacilityPipesStep, eraseFirstVisitorVid, releaseTubes, ha_sh, hap]
  · simp [endFacilityPipesStep, eraseFirstVisitorVid, releaseTubes, hb_sh, hbp,
      Nat.add_comm b.group_size a.group_size]
  · simp [endFacilityPipesStep, eraseFirstVisitorVid, releaseTubes, hb_sh, hbp,
      Nat.add_comm b.group_size a.group_size]
    omega
  · simp [endFacilityPipesStep, eraseFirstVisitorVid, releaseTubes, hc]

theorem C7_pipes_river_tube_release_witness :
    (endFacilityPipesStep
        [{ vid := 1, group_size := 3, rating := 10, is_shared_tube := true,
           tube_partner := some (2, 5) },
         { vid := 2, group_size := 5, rating := 10, is_shared_tube := true,
           tube_partner := some (1, 3) }] 10
        { vid := 1, group_size := 3, rating := 10, is_shared_tube := true,
          tube_partner := some (2, 5) }).1 =
      [{ vid := 2, group_size := 5, rating := 10, is_shared_tube := true,
         tube_partner := some (1, 3) }] ∧
    (endFacilityPipesStep
        [{ vid := 1, group_size := 3, rating := 10, is_shared_tube := true,
           tube_partner := some (2, 5) },
         { vid := 2, group_size := 5, rating := 10, is_shared_tube := true,
           tube_partner := some (1, 3) }] 10
        { vid := 1, group_size := 3, rating := 10, is_shared_tube := true,
          tube_partner := some (2, 5) }).2 = 10 ∧
    (endFacilityPipesStep
        [{ vid := 2, group_size := 5, rating := 10, is_shared_tube := true,
           tube_partner := some (1, 3) }] 10
        { vid := 2, group_size := 5, rating := 10, is_shared_tube := true,
          tube_partner := some (1, 3) }).2 =
      10 - ceilDiv (3 + 5) pipesPeoplePerTube ∧
    (endFacilityPipesStep
        [{ vid := 2, group_size := 5, rating := 10, is_shared_tube := true,
           tube_partner := some (1, 3) }] 10
        { vid := 2, group_size := 5, rating := 10, is_shared_tube := true,
          tube_partner := some (1, 3) }).2 + ceilDiv (3 + 5) pipesPeoplePerTube = 10 ∧
    (endFacilityPipesStep
        [{ vid := 3, group_size := 5, rating := 10, is_shared_tube := false,
           tube_partner := none }] 10
        { vid := 3, group_size := 5, rating := 10, is_shared_tube := false,
          tube_partner := none }).2 = 10 - ceilDiv 5 pipesPeoplePerTube :=
  C7_pipes_river_tube_release
    { vid := 1, group_size := 3, rating := 10, is_shared_tube := true,
      tube_partner := some (2, 5) }
    { vid := 2, group_size := 5, rating := 10, is_shared_tube := true,
      tube_partner := some (1, 3) }
    { vid := 3, group_size := 5, rating := 10, is_shared_tube := false,
      tube_partner := none }
    10 rfl rfl rfl rfl (by decide) rfl

/-- C2: the abandonment exit path does not decrement
active_subgroups_count. A freshly created family (counter 1, never
split) that abandons a queue with no further facility available is
booked through AbandonmentEvent.handle with its rating appended and the
completion counters incremented, while its active_subgroups_count is
still 1: the counter is neither decremented on this exit nor required
to reach 0 for the booking, contradicting the claimed invariant. The
same path books an exiting SubGroup with the subgroup's own size while
leaving the parent's counter untouched, so the counter then never
reaches 0 at all. -/
theorem C2_abandonment_exit_books_without_decrement :
    (abandonmentExitEntity (familyInit 1 [6] 18 false).rating
        (familyInit 1 [6] 18 false).group_size (familyInit 1 [6] 18 false)
        ⟨[], 0, 0, 0⟩).1.active_subgroups_count = 1 ∧
    (abandonmentExitEntity (familyInit 1 [6] 18 false).rating
        (familyInit 1 [6] 18 false).group_size (familyInit 1 [6] 18 false)
        ⟨[], 0, 0, 0⟩).2.ratings = [10] ∧
    (abandonmentExitEntity (familyInit 1 [6] 18 false).rating
        (familyInit 1 [6] 18 false).group_size (familyInit 1 [6] 18 false)
        ⟨[], 0, 0, 0⟩).2.total_entities_completed = 1 ∧
    (abandonmentExitEntity (familyInit 1 [6] 18 false).rating
        (familyInit 1 [6] 18 false).group_size (familyInit 1 [6] 18 false)
        ⟨[], 0, 0, 0⟩).2.total_people_completed = 3 := by
  decide

/-- Membership in the modelled identity set distributes over append. -/
theorem inCompleted_append (l1 l2 : List Visitor) (v : Visitor) :
    inCompleted (l1 ++ l2) v = (inCompleted l1 v || inCompleted l2 v) := by
  simp [inCompleted, List.any_append]

theorem forceCloseStep_mono (v : Visitor) (acc : SimState × List Visitor) (u : Visitor)
    (h : inCompleted acc.2 v = true) : inCompleted (forceCloseStep acc u).2 v = true := by
  unfold forceCloseStep
  by_cases hcase : inCompleted acc.2 u = true
  · rw [if_pos hcase]; exact h
  · rw [if_neg hcase]
    rw [inCompleted_append, h, Bool.true_or]

theorem foldl_step_mono (v : Visitor) (l : List Visitor) :
    ∀ acc, inCompleted acc.2 v = true →
      inCompleted (l.foldl forceCloseStep acc).2 v = true := by
  induction l with
  | nil => intro acc h; exact h
  | cons u us ih => intro acc h; exact ih _ (forceCloseStep_mono v acc u h)

theorem foldl_step_adds (v : Visitor) (l : List Visitor) :
    ∀ acc, v ∈ l → inCompleted (l.foldl forceCloseStep acc).2 v = true := by
  induction l with
  | nil => intro acc h; cases h
  | cons u us ih =>
    intro acc h
    rcases List.mem_cons.mp h with rfl | h2
    · refine foldl_step_mono v us _ ?_
      unfold forceCloseStep
      by_cases hcase : inCompleted acc.2 v = true
      · rw [if_pos hcase]; exact hcase
      · rw [if_neg hcase]
        rw [inCompleted_append]
        simp [inCompleted]
    · exact ih _ h2

theorem forceCloseStep_inv (acc : SimState × List Visitor) (u : Visitor)
    (h : ∀ w, inCompleted acc.2 w = true →
      inCompleted acc.1.visitors_completed w = true) :
    ∀ w, inCompleted (forceCloseStep acc u).2 w = true →
      inCompleted (forceCloseStep acc u).1.visitors_completed w = true := by
  intro w hw
  unfold forceCloseStep at hw ⊢
  by_cases hcase : inCompleted acc.2 u = true
  · rw [if_pos hcase] at hw ⊢; exact h w hw
  · rw [if_neg hcase] at hw ⊢
    rw [inCompleted_append] at hw
    have hcv : (completeVisitor acc.1 u).visitors_completed =
        acc.1.visitors_completed ++ [u] := rfl
    rw [hcv, inCompleted_append]
    simp only [Bool.or_eq_true] at hw
    rcases hw with h1 | h1
    · rw [h w h1, Bool.true_or]
    · rw [h1, Bool.or_true]

theorem foldl_step_inv (l : List Visitor) :
    ∀ acc, (∀ w, inCompleted acc.2 w = true →
        inCompleted acc.1.visitors_completed w = true) →
      ∀ w, inCompleted (l.foldl forceCloseStep acc).2 w = true →
        inCompleted (l.foldl forceCloseStep acc).1.visitors_completed w = true := by
  induction l with
  | nil => intro acc h; exact h
  | cons u us ih => intro acc h; exact ih _ (forceCloseStep_inv acc u h)

theorem forceCloseFacility_mono (v : Visitor) (f : FacilityState)
    (acc : SimState × List Visitor) (h : inCompleted acc.2 v = true) :
    inCompleted (forceCloseFacility acc f).2 v = true := by
  unfold forceCloseFacility
  exact foldl_step_mono v _ _ (foldl_step_mono v _ _ (foldl_step_mono v _ _ h))

theorem forceCloseFacility_inv (f : FacilityState) (acc : SimState × List Visitor)
    (h : ∀ w, inCompleted acc.2 w = true →
      inCompleted acc.1.visitors_completed w = true) :
    ∀ w, inCompleted (forceCloseFacility acc f).2 w = true →
      inCompleted (forceCloseFacility acc f).1.visitors_completed w = true := by
  unfold forceCloseFacility
  exact foldl_step_inv _ _ (foldl_step_inv _ _ (foldl_step_inv _ _ h))

theorem fold_facilities_mono (v : Visitor) (facs : List FacilityState) :
    ∀ acc, inCompleted acc.2 v = true →
      inCompleted (facs.foldl forceCloseFacility acc).2 v = true := by
  induction facs with
  | nil => intro acc h; exact h
  | cons f fs ih => intro acc h; exact ih _ (forceCloseFacility_mono v f acc h)

theorem fold_facilities_inv (facs : List FacilityState) :
    ∀ acc, (∀ w, inCompleted acc.2 w = true →
        inCompleted acc.1.visitors_completed w = true) →
      ∀ w, inCompleted (facs.foldl forceCloseFacility acc).2 w = true →
        inCompleted (facs.foldl forceCloseFacility acc).1.visitors_completed w = true := by
  induction facs with
  | nil => intro acc h; exact h
  | cons f fs ih => intro acc h; exact ih _ (forceCloseFacility_inv f acc h)

theorem fold_facilities_adds (v : Visitor) (facs : List FacilityState) :
    ∀ acc, (∃ f ∈ facs, v ∈ f.users_in_service ∨ v ∈ queueVisitors f.queue_regular ∨
        v ∈ queueVisitors f.queue_express) →
      inCompleted (facs.foldl forceCloseFacility acc).2 v = true := by
  induction facs with
  | nil => intro acc h; simp at h
  | cons f0 fs ih =>
    intro acc h
    rcases h with ⟨f, hf, hplaces⟩
    rcases List.mem_cons.mp hf with rfl | hmem
    · refine fold_facilities_mono v fs _ ?_
      unfold forceCloseFacility
      rcases hplaces with h1 | h2 | h3
      · exact foldl_step_mono v _ _ (foldl_step_mono v _ _ (foldl_step_adds v _ _ h1))
      · exact foldl_step_mono v _ _ (foldl_step_adds v _ _ h2)
      · exact foldl_step_adds v _ _ h3
    · exact ih _ ⟨f, hmem, hplaces⟩

/-- C3 counterexample: a terminal state with one visitor still waiting
in a facility queue and one visitor still waiting in a restaurant queue
(both entered, nothing completed). force_close_park completes the
facility visitor but never visits the restaurants, so after force-close
the completed counters remain strictly below the entered counters,
refuting completed equals entered. -/
theorem C3_counterexample_restaurant_not_closed :
    (forceClosePark
        { facilities :=
            [{ users_in_service := [],
               queue_regular := { server_queue := [(⟨1, 2, 9, false, none⟩, 600)] },
               queue_express := QueueServer.init }],
          restaurants :=
            [{ queue := { server_queue := [(⟨2, 3, 9, false, none⟩, 600)] } }],
          visitors_completed := [], ratings := [],
          total_entities_entered := 2, total_people_entered := 5,
          total_entities_completed := 0, total_people_completed := 0,
          total_revenue := 0 }).total_entities_completed = 1 ∧
    (forceClosePark
        { facilities :=
            [{ users_in_service := [],
               queue_regular := { server_queue := [(⟨1, 2, 9, false, none⟩, 600)] },
               queue_express := QueueServer.init }],
          restaurants :=
            [{ queue := { server_queue := [(⟨2, 3, 9, false, none⟩, 600)] } }],
          visitors_completed := [], ratings := [],
          total_entities_entered := 2, total_people_entered := 5,
          total_entities_completed := 0, total_people_completed := 0,
          total_revenue := 0 }).total_people_completed = 2 ∧
    inCompleted
      (forceClosePark
        { facilities :=
            [{ users_in_service := [],
               queue_regular := { server_queue := [(⟨1, 2, 9, false, none⟩, 600)] },
               queue_express := QueueServer.init }],
          restaurants :=
            [{ queue := { server_queue := [(⟨2, 3, 9, false, none⟩, 600)] } }],
          visitors_completed := [], ratings := [],
          total_entities_entered := 2, total_people_entered := 5,
          total_entities_completed := 0, total_people_completed := 0,
          total_revenue := 0 }).visitors_completed ⟨2, 3, 9, false, none⟩ = false ∧
    ¬ ((forceClosePark
        { facilities :=
            [{ users_in_service := [],
               queue_regular := { server_queue := [(⟨1, 2, 9, false, none⟩, 600)] },
               queue_express := QueueServer.init }],
          restaurants :=
            [{ queue := { server_queue := [(⟨2, 3, 9, false, none⟩, 600)] } }],
          visitors_completed := [], ratings := [],
          total_entities_entered := 2, total_people_entered := 5,
          total_entities_completed := 0, total_people_completed := 0,
          total_revenue := 0 }).total_entities_completed =
        (forceClosePark
        { facilities :=
            [{ users_in_service := [],
               queue_regular := { server_queue := [(⟨1, 2, 9, false, none⟩, 600)] },
               queue_express := QueueServer.init }],
          restaurants :=
            [{ queue := { server_queue := [(⟨2, 3, 9, false, none⟩, 600)] } }],
          visitors_completed := [], ratings := [],
          total_entities_entered := 2, total_people_entered := 5,
          total_entities_completed := 0, total_people_completed := 0,
          total_revenue := 0 }).total_entities_entered) := by
  decide

/-- C3 amended: the force-close pass completes every entity found in a
facility in-service set or facility queue (regular or express) that is
not already completed; restaurant queues and visitors currently eating
are outside the sweep, so completed need not equal entered. -/
theorem C3_force_close_covers_facilities (s : SimState) (v : Visitor) (f : FacilityState)
    (hf : f ∈ s.facilities)
    (hv : v ∈ f.users_in_service ∨ v ∈ queueVisitors f.queue_regular ∨
      v ∈ queueVisitors f.queue_express) :
    inCompleted (forceClosePark s).visitors_completed v = true := by
  unfold forceClosePark
  have hset := fold_facilities_adds v s.facilities (s, s.visitors_completed) ⟨f, hf, hv⟩
  exact fold_facilities_inv s.facilities (s, s.visitors_completed) (fun w hw => hw) v hset

theorem C3_force_close_covers_facilities_witness :
    inCompleted
      (forceClosePark
        { facilities :=
            [{ users_in_service := [⟨7, 4, 10, false, none⟩],
               queue_regular := QueueServer.init,
               queue_express := QueueServer.init }],
          restaurants := [],
          visitors_completed := [], ratings := [],
          total_entities_entered := 1, total_people_entered := 4,
          total_entities_completed := 0, total_people_completed := 0,
          total_revenue := 0 }).visitors_completed ⟨7, 4, 10, false, none⟩ = true :=
  C3_force_close_covers_facilities _ ⟨7, 4, 10, false, none⟩
    { users_in_service := [⟨7, 4, 10, false, none⟩],
      queue_regular := QueueServer.init, queue_express := QueueServer.init }
    (by simp) (Or.inl (by simp))

theorem eraseFirstVid_length_le (l : List (Visitor × ℚ)) (i : Nat) :
    (eraseFirstVid l i).length ≤ l.length := by
  induction l with
  | nil => simp [eraseFirstVid]
  | cons p ps ih =>
    obtain ⟨pv, pt⟩ := p
    simp only [eraseFirstVid]
    split
    · simp
    · simp only [List.length_cons]
      omega

theorem removeQ_length_le (q : QueueServer) (v : Visitor) (t : ℚ) :
    (q.removeQ v t).server_queue.length ≤ q.server_queue.length := by
  have h := eraseFirstVid_length_le q.server_queue v.vid
  simpa [QueueServer.removeQ, QueueServer.recordLen] using h

theorem releaseTubes_le (users : List Visitor) (occ : Nat) (v : Visitor)
    (h : occ ≤ pipesTotalTubes) : releaseTubes users occ v ≤ pipesTotalTubes := by
  unfold releaseTubes
  split
  · split
    · split
      · exact h
      · omega
    · exact h
  · omega

/-- Every admission performed by the Wave-Pool and Kids-Pool try-start
pass is guarded by can_enter, so the in-service headcount stays within
the capacity. -/
theorem poolTryStartF_occupancy_le (cap : Nat) (m : ℚ) :
    ∀ (fuel : Nat) (exq req : QueueServer) (users : List Visitor),
      sizeSum users ≤ cap →
      sizeSum (poolTryStartF cap m fuel exq req users).2.2 ≤ cap := by
  intro fuel
  induction fuel with
  | zero => intro exq req users h; simpa [poolTryStartF] using h
  | succ n ih =>
    intro exq req users h
    rw [poolTryStartF]
    split
    · simpa using h
    · split
      · next i hfind =>
        obtain ⟨hilt, hp, _⟩ := List.findIdx?_eq_some_iff_getElem.mp hfind
        have hv : ((queueVisitors exq).get? i).getD dummyVisitor =
            (queueVisitors exq)[i] := by
          simp [List.get?_eq_getElem?, List.getElem?_eq_getElem hilt]
        apply ih
        rw [hv]
        have hfits := of_decide_eq_true hp
        simp only [sizeSum_append, sizeSum_cons, sizeSum_nil]
        omega
      · next hnone =>
        split
        · next j hfind =>
          obtain ⟨hjlt, hp, _⟩ := List.findIdx?_eq_some_iff_getElem.mp hfind
          have hv : ((queueVisitors req).get? j).getD dummyVisitor =
              (queueVisitors req)[j] := by
            simp [List.get?_eq_getElem?, List.getElem?_eq_getElem hjlt]
          apply ih
          rw [hv]
          have hfits := of_decide_eq_true hp
          simp only [sizeSum_append, sizeSum_cons, sizeSum_nil]
          omega
        · next => simpa using h

/-- Every tube acquisition in process_entry is guarded by a check that
the occupied-tube count stays within the total, so the loop preserves
the tube bound. -/
theorem processEntryLoop_occ_le :
    ∀ (N : Nat) (exq req : QueueServer),
      exq.server_queue.length + req.server_queue.length ≤ N →
      ∀ (occ : Nat) (t : ℚ) (entering : List Visitor), occ ≤ pipesTotalTubes →
        (processEntryLoop exq req occ t entering).occ ≤ pipesTotalTubes := by
  intro N
  induction N with
  | zero =>
    intro exq req hlen occ t entering hocc
    have hx : exq.server_queue = [] := by
      cases h : exq.server_queue with
      | nil => rfl
      | cons a l => rw [h] at hlen; simp at hlen
    have hr : req.server_queue = [] := by
      cases h : req.server_queue with
      | nil => rfl
      | cons a l => rw [h] at hlen; simp at hlen
    rw [processEntryLoop.eq_def, hx, hr]
    split
    · exact hocc
    · exact hocc
  | succ n ih =>
    intro exq req hlen occ t entering hocc
    rw [processEntryLoop.eq_def]
    split
    · next hlt =>
      split
      · next g snd tail hx =>
        split
        · next heven =>
          try dsimp only
          split
          · next hfit =>
            apply ih
            · rw [popQ_server exq t g snd tail hx]
              rw [hx] at hlen
              simp only [List.length_cons] at hlen
              omega
            · exact hfit
          · next => exact hocc
        · next hodd =>
          try dsimp only
          split
          · next j hfind =>
            try dsimp only
            split
            · next hfit =>
              apply ih
              · have h1 : ((exq.popQ t).1).server_queue = tail :=
                  popQ_server exq t g snd tail hx
                have h2 := removeQ_length_le (exq.popQ t).1
                  (((queueVisitors (exq.popQ t).1).get? j).getD dummyVisitor) t
                rw [h1] at h2
                rw [hx] at hlen
                simp only [List.length_cons] at hlen
                omega
              · exact hfit
            · next => exact hocc
          · next hniexp =>
            split
            · next j hfind =>
              try dsimp only
              split
              · next hfit =>
                apply ih
                · have h1 : ((exq.popQ t).1).server_queue = tail :=
                    popQ_server exq t g snd tail hx
                  have h2 := removeQ_length_le req
                    (((queueVisitors req).get? j).getD dummyVisitor) t
                  rw [h1]
                  rw [hx] at hlen
                  simp only [List.length_cons] at hlen
                  omega
                · exact hfit
              · next => exact hocc
            · next => exact hocc
      · next hx =>
        split
        · next g snd tail hr =>
          split
          · next heven =>
            try dsimp only
            split
            · next hfit =>
              apply ih
              · rw [popQ_server req t g snd tail hr]
                rw [hr] at hlen
                simp only [List.length_cons] at hlen
                omega
              · exact hfit
            · next => exact hocc
          · next hodd =>
            try dsimp only
            split
            · next j hfind =>
              try dsimp only
              split
              · next hfit =>
                apply ih
                · have h1 : ((req.popQ t).1).server_queue = tail :=
                    popQ_server req t g snd tail hr
                  have h2 := removeQ_length_le (req.popQ t).1
                    (((queueVisitors (req.popQ t).1).get? j).getD dummyVisitor) t
                  rw [h1] at h2
                  rw [hr] at hlen
                  simp only [List.length_cons] at hlen
                  omega
                · exact hfit
              · next => exact hocc
            · next => exact hocc
        · next hr => exact hocc
    · next => exact hocc

/-- Any non-empty batch returned by get_next_batch has headcount exactly
the tube size. -/
theorem getNextBatch_nonempty_sizeSum (E : Nat) (t : ℚ) (exq req : QueueServer)
    (h : (getNextBatch E t exq req).1 ≠ []) :
    sizeSum (getNextBatch E t exq req).1 = E := by
  obtain ⟨ke, hke, htempE, hbatchE, hbsE, hservE, hwaitE, hchgE, hdoneE⟩ :=
    takeLoop_spec E t exq.server_queue.length exq (le_refl _) 0 [] []
  by_cases h0 : queueSizes exq + queueSizes req < E
  · exfalso
    apply h
    rw [getNextBatch_eq, if_pos h0]
  · by_cases h1 : (takeLoop E t exq 0 [] []).done = true
    · have hgnb : (getNextBatch E t exq req).1 = (takeLoop E t exq 0 [] []).batch := by
        rw [getNextBatch_eq, if_neg h0]
        simp only [h1, if_true]
      obtain ⟨hE, hk1⟩ := hdoneE h1
      rw [hgnb, hbatchE, List.nil_append]
      omega
    · obtain ⟨kr, hkr, htempR, hbatchR, hbsR, hservR, hwaitR, hchgR, hdoneR⟩ :=
        takeLoop_spec E t req.server_queue.length req (le_refl _)
          (takeLoop E t exq 0 [] []).bs (takeLoop E t exq 0 [] []).batch []
      by_cases h2 : (takeLoop E t req (takeLoop E t exq 0 [] []).bs
          (takeLoop E t exq 0 [] []).batch []).done = true
      · have hgnb : (getNextBatch E t exq req).1 =
            (takeLoop E t req (takeLoop E t exq 0 [] []).bs
              (takeLoop E t exq 0 [] []).batch []).batch := by
          rw [getNextBatch_eq, if_neg h0]
          simp only [h1, if_false, h2, if_true, Bool.false_eq_true]
        obtain ⟨hE2, hk2⟩ := hdoneR h2
        rw [hgnb, hbatchR, sizeSum_append, hbatchE, List.nil_append]
        omega
      · exfalso
        apply h
        rw [getNextBatch_eq, if_neg h0]
        simp only [h1, h2, if_false, Bool.false_eq_true]

/-- C4 amended: the capacity bounds hold for the facilities whose
admission paths check them. The Wave-Pool and Kids-Pool pass admits only
groups passing can_enter, so the in-service headcount stays within the
capacity; every Pipes-River tube acquisition in process_entry is
guarded, so occupied_tubes stays within 60, and release only decreases
it; a non-empty Big or Small Pipes batch has headcount exactly the tube
size, which is the capacity. The Single Slide branch checks only the
lane cooldown and the Snorkel branch bounds only each single tour, so
those two facilities admit no such bound (see the counterexample). -/
theorem C4_capacity_bounds_amended :
    (∀ (cap : Nat) (m : ℚ) (fuel : Nat) (exq req : QueueServer) (users : List Visitor),
        sizeSum users ≤ cap →
        sizeSum (poolTryStartF cap m fuel exq req users).2.2 ≤ cap) ∧
    (∀ (exq req : QueueServer) (occ : Nat) (t : ℚ) (entering : List Visitor),
        occ ≤ pipesTotalTubes →
        (processEntryLoop exq req occ t entering).occ ≤ pipesTotalTubes) ∧
    (∀ (users : List Visitor) (occ : Nat) (v : Visitor), occ ≤ pipesTotalTubes →
        releaseTubes users occ v ≤ pipesTotalTubes) ∧
    (∀ (E : Nat) (t : ℚ) (exq req : QueueServer), (getNextBatch E t exq req).1 ≠ [] →
        sizeSum (getNextBatch E t exq req).1 = E) :=
  ⟨fun cap m fuel exq req users h => poolTryStartF_occupancy_le cap m fuel exq req users h,
   fun exq req occ t entering h =>
     processEntryLoop_occ_le (exq.server_queue.length + req.server_queue.length)
       exq req (le_refl _) occ t entering h,
   fun users occ v h => releaseTubes_le users occ v h,
   fun E t exq req h => getNextBatch_nonempty_sizeSum E t exq req h⟩

/-- C4 counterexample: the Single Slide try-start branch never checks
the capacity of 6 (only the per-lane half-minute cooldown), so four
try-start calls at minutes 600, 600.5, 601 and 601.5, each admitting two
queued singles on the two lanes, leave 8 people in service while every
ride started is still running (each lasts 3 minutes); and the Snorkel
branch bounds only a single tour by 30, so a second tour started by the
second instructor at minute 610, while the first 30-person tour (ending
at minute 630) is still out, brings the in-service headcount to 36. -/
theorem C4_counterexample_single_slide_and_snorkel :
    singleSlideCapacity < sizeSum singleSlideScenario4.2.2.2 ∧
    sizeSum singleSlideScenario4.2.2.2 = 8 ∧
    snorkelTourCapacity < sizeSum snorkelScenario2.2.2.2 ∧
    sizeSum snorkelScenario2.2.2.2 = 36 := by
  refine ⟨?_, ?_, ?_, ?_⟩ <;>
    norm_num [singleSlideScenario4, singleSlideScenario3, singleSlideScenario2,
      singleSlideScenario1, singleSlideLoop, getAvailableSlide, snorkelScenario2,
      snorkelScenario1, snorkelTryStart, getAvailableInstructor, fillTour, startTour,
      instructorInit, snorkelScenarioQ1, teen6, ssv, QueueServer.popQ,
      QueueServer.recordLen, QueueServer.addQ, QueueServer.init, sizeSum,
      snorkelTourCapacity, singleSlideCapacity, singleSlideSafetyInterval,
      List.cons_ne_nil]

theorem C4_capacity_bounds_amended_witness :
    sizeSum (poolTryStartF 80 600 1 QueueServer.init QueueServer.init []).2.2 ≤ 80 ∧
    (processEntryLoop QueueServer.init QueueServer.init 0 600 []).occ ≤
      pipesTotalTubes ∧
    releaseTubes [] 60 dummyVisitor ≤ pipesTotalTubes ∧
    sizeSum (getNextBatch 8 600 bigPipesReadyQueue QueueServer.init).1 = 8 :=
  ⟨C4_capacity_bounds_amended.1 80 600 1 QueueServer.init QueueServer.init []
     (by decide),
   C4_capacity_bounds_amended.2.1 QueueServer.init QueueServer.init 0 600 []
     (by decide),
   C4_capacity_bounds_amended.2.2.1 [] 60 dummyVisitor (by decide),
   C4_capacity_bounds_amended.2.2.2 8 600 bigPipesReadyQueue QueueServer.init
     (by norm_num [getNextBatch_eq, queueSizes, bigPipesReadyQueue, takeLoop,
       QueueServer.popQ, QueueServer.recordLen, QueueServer.init, List.cons_ne_nil])⟩

theorem C10_rollback_mutates_statistics_witness :
    ∃ ke kr,
      (getNextBatch 8 10 { server_queue := [(⟨31, 5, 10, false, none⟩, 2)] }
          { server_queue := [(⟨32, 5, 10, false, none⟩, 3)] }).2.1.server_queue =
        ({ server_queue := [(⟨31, 5, 10, false, none⟩, 2)] } : QueueServer).server_queue ∧
      (getNextBatch 8 10 { server_queue := [(⟨31, 5, 10, false, none⟩, 2)] }
          { server_queue := [(⟨32, 5, 10, false, none⟩, 3)] }).2.2.server_queue =
        ({ server_queue := [(⟨32, 5, 10, false, none⟩, 3)] } : QueueServer).server_queue ∧
      (getNextBatch 8 10 { server_queue := [(⟨31, 5, 10, false, none⟩, 2)] }
          { server_queue := [(⟨32, 5, 10, false, none⟩, 3)] }).2.1.waiting_times =
        ({ server_queue := [(⟨31, 5, 10, false, none⟩, 2)] } : QueueServer).waiting_times ++
          ((({ server_queue := [(⟨31, 5, 10, false, none⟩, 2)] } : QueueServer).server_queue.take
            ke).map (fun p => 10 - p.2)) ∧
      (getNextBatch 8 10 { server_queue := [(⟨31, 5, 10, false, none⟩, 2)] }
          { server_queue := [(⟨32, 5, 10, false, none⟩, 3)] }).2.2.waiting_times =
        ({ server_queue := [(⟨32, 5, 10, false, none⟩, 3)] } : QueueServer).waiting_times ++
          ((({ server_queue := [(⟨32, 5, 10, false, none⟩, 3)] } : QueueServer).server_queue.take
            kr).map (fun p => 10 - p.2)) ∧
      (getNextBatch 8 10 { server_queue := [(⟨31, 5, 10, false, none⟩, 2)] }
          { server_queue := [(⟨32, 5, 10, false, none⟩, 3)] }).2.1.queue_change_times.length =
        ({ server_queue := [(⟨31, 5, 10, false, none⟩, 2)] } :
          QueueServer).queue_change_times.length + 2 * ke ∧
      (getNextBatch 8 10 { server_queue := [(⟨31, 5, 10, false, none⟩, 2)] }
          { server_queue := [(⟨32, 5, 10, false, none⟩, 3)] }).2.2.queue_change_times.length =
        ({ server_queue := [(⟨32, 5, 10, false, none⟩, 3)] } :
          QueueServer).queue_change_times.length + 2 * kr :=
  C10_rollback_mutates_statistics 8 10
    { server_queue := [(⟨31, 5, 10, false, none⟩, 2)] }
    { server_queue := [(⟨32, 5, 10, false, none⟩, 3)] }
    (by norm_num [getNextBatch_eq, queueSizes, takeLoop, QueueServer.popQ,
      QueueServer.recordLen, rollbackQ, QueueServer.insertQ, listInsertAt,
      List.cons_ne_nil])
